import Mathlib

/-!
Shallow embedding of `opal/views.py`, the view/controller layer of the OPAL
clinical patient-tracking application, together with theorems about its
request handlers.

Modelling conventions:
* Python/JSON values are modelled by the inductive type `Val`.
* The ORM, the serializers (`to_dict`, `update_from_dict`, ...) and the other
  model-layer collaborators are not part of the sources; the spec explicitly
  treats them as external.  They are abstracted as fields of explicit model
  structures, and the views are state-passing functions over an abstract
  database state.
* An uncaught Python exception (KeyError, DoesNotExist, ...) is modelled by
  the view returning `none`.
* Exceptions that the views catch explicitly (`ConsistencyError`, `APIError`,
  `TemplateDoesNotExist`) are modelled by `Option`/`Except` results of the
  corresponding abstract operations.
-/

namespace Opal

/-! ### The data model and the embedded request handlers -/

/-- Python/JSON values as they flow through the request handlers. -/
inductive Val where
  | str : String → Val
  | int : Int → Val
  | bool : Bool → Val
  | null : Val
  | dict : List (String × Val) → Val
  | list : List Val → Val

/-- Python truthiness of a `Val`, as used by `if hospital_number:` and the
tagging filter in `episode_list_and_create_view`. -/
def truthy : Val → Bool
  | .str s => s != ""
  | .int n => n != 0
  | .bool b => b
  | .null => false
  | .dict kvs => !kvs.isEmpty
  | .list vs => !vs.isEmpty

/-- First-match association-list lookup, the model of Python dict indexing
(`d[k]`, returning `none` where Python raises `KeyError`). -/
def alookup {κ α : Type} [DecidableEq κ] : List (κ × α) → κ → Option α
  | [], _ => none
  | (k2, v) :: rest, k => if k2 = k then some v else alookup rest k

/-- Python `d.get(k)` on a value expected to be a dict: `none` models the
`AttributeError` raised when the value is not a dict, and a missing key
yields Python `None` (`Val.null`). -/
def pyDictGet (v : Val) (k : String) : Option Val :=
  match v with
  | .dict kvs => some ((alookup kvs k).getD Val.null)
  | _ => none

/-- Python `xs[0]` on a value expected to be a non-empty list; `none` models
the `TypeError`/`IndexError` raised otherwise. -/
def pyIndex0 : Val → Option Val
  | .list (x :: _) => some x
  | _ => none

/-- Python `d.items()` on a value expected to be a dict, in insertion order;
`none` models the `AttributeError` raised when the value is not a dict. -/
def pyItems : Val → Option (List (String × Val))
  | .dict kvs => some kvs
  | _ => none

/-- HTTP methods accepted by the legacy API views. -/
inductive HttpMethod where
  | GET
  | PUT
  | POST
deriving DecidableEq

/-- The responses the embedded views can produce: a JSON body with an HTTP
status code, Django's `HttpResponseNotFound`, or the 405 produced by the
`require_http_methods` decorator. -/
inductive Response where
  | json : Val → Nat → Response
  | notFound : Response
  | notAllowed : Response

/-- Modelled from the spec: `_build_json_response` from `opal.core.views` is
imported by the sources but not itself part of them.  The spec describes the
API as returning JSON bodies with an HTTP status, error statuses 400/409
where toggled, and a default success status of 200; callers that rely on the
default pass `200` explicitly here. -/
def build_json_response (data : Val) (status : Nat) : Response :=
  Response.json data status

/-- The fields of an `Episode` row that the embedded views read directly.
Everything else about an episode lives behind the abstract model
operations. -/
structure EpisodeRow where
  patient : Nat
  category : String
  date_of_admission : Option String
deriving DecidableEq

/-- `EpisodeDetailTemplateView.get_template_names`: the category-named detail
template followed by the default detail template. -/
def EpisodeDetailTemplateView_get_template_names (episode : EpisodeRow) : List String :=
  ["detail/" ++ episode.category.toLower ++ ".html", "detail/default.html"]

/-- The model-layer collaborators of `patient_search_view`: the ORM filter
(with its `order_by` on date of birth) and the patient serializer, over an
abstract patient type `P`, user type `U` and database state `St`. -/
structure SearchModel (P U St : Type) where
  filter_order : List (String × String) → St → List P
  to_dict : P → U → St → Val

/-- `patient_search_view`: build `search_terms` and `filter_dict` from the
`hospital_number` and `name` query parameters, then either return the
serialised filtered patients or a 400 `No search terms` error. -/
def patient_search_view {P U St : Type} (M : SearchModel P U St) (st : St) (user : U)
    (GET : List (String × String)) : Response :=
  let sf : List (String × String) × List (String × String) :=
    match alookup GET "hospital_number" with
    | some v => ([("hospital_number", v)], [("demographics__hospital_number__iexact", v)])
    | none => ([], [])
  let sf : List (String × String) × List (String × String) :=
    match alookup GET "name" with
    | some v => (sf.1 ++ [("name", v)], sf.2 ++ [("demographics__name__icontains", v)])
    | none => sf
  let filter_dict := sf.2
  if filter_dict.isEmpty then
    build_json_response (Val.dict [("error", Val.str "No search terms")]) 400
  else
    build_json_response
      (Val.list ((M.filter_order filter_dict st).map (fun p => M.to_dict p user st))) 200

/-- The values stored in the `filter_kwargs` dict of `EpisodeListView.get`:
either a team name (for `tagging__team__name`) or the requesting user (for
`tagging__user`). -/
inductive FilterVal (U : Type) where
  | team_name : String → FilterVal U
  | tagged_user : U → FilterVal U

/-- Python truthiness of an URL keyword argument that is either absent
(`None`) or a string. -/
def optStrTruthy : Option String → Bool
  | some s => s != ""
  | none => false

/-- The `filter_kwargs` dict built by `EpisodeListView.get`: the subtag, else
the tag, as team-name filter, plus the requesting user when the tag is
`mine`. -/
def episode_list_filter_kwargs {U : Type} (user : U) (tag subtag : Option String) :
    List (String × FilterVal U) :=
  let filter_kwargs : List (String × FilterVal U) :=
    if optStrTruthy subtag then [("tagging__team__name", FilterVal.team_name (subtag.getD ""))]
    else if optStrTruthy tag then [("tagging__team__name", FilterVal.team_name (tag.getD ""))]
    else []
  if tag = some "mine" then
    filter_kwargs ++ [("tagging__user", FilterVal.tagged_user user)]
  else
    filter_kwargs

/-- `EpisodeListView.get`: serialise the active episodes selected by
`filter_kwargs`. -/
def EpisodeListView_get {U St : Type}
    (serialised_active : List (String × FilterVal U) → St → Val) (st : St) (user : U)
    (tag subtag : Option String) : Response :=
  build_json_response (serialised_active (episode_list_filter_kwargs user tag subtag) st) 200

/-- The URL keyword arguments the template views receive: `tag` and `subtag`,
each either absent or a string. -/
structure Kwargs where
  tag : Option String
  subtag : Option String

/-- A column class as `_get_column_context` reads it: the class name, the
`_is_singleton` flag, the optional `_title`, `_icon`, `_list_limit` and
`_batch_template` attributes, and the `get_display_template` class method
(abstract here: it belongs to the model layer, not to the sources). -/
structure Column where
  name : String
  is_singleton : Bool
  title : Option String
  icon : Option String
  list_limit : Option Int
  batch_template : Option String
  display_template : Option String → Option String → String

/-- A value of the `LIST_SCHEMAS` dict: either directly a list of column
classes (as under the top-level `default` key) or a dict from subtag names to
lists of column classes. -/
inductive SchemaEntry where
  | cols : List Column → SchemaEntry
  | table : List (String × List Column) → SchemaEntry

/-- Python `k in e` for a `LIST_SCHEMAS` value: key membership for a dict,
and `false` for a list of column classes (a string is never a column
class). -/
def entryMem : SchemaEntry → String → Bool
  | .cols _, _ => false
  | .table t, k => (alookup t k).isSome

/-- Python `e[k]` for a `LIST_SCHEMAS` dict value, defaulting to `[]` on the
branches the views never reach (`entryMem` is checked first). -/
def entryGet : SchemaEntry → String → List Column
  | .cols _, _ => []
  | .table t, k => (alookup t k).getD []

/-- The schema carried by a `LIST_SCHEMAS` value, when it is directly a list
of column classes. -/
def entrySchema : SchemaEntry → Option (List Column)
  | .cols s => some s
  | .table _ => none

/-- The `active_schema` selection of `EpisodeTemplateView.get_column_context`:
the subtag schema, else the tag's `default` schema, else the global
`default` schema (whose absence raises `KeyError`, modelled by `none`), and
the view's own `column_schema` when the tag is absent or unknown. -/
def resolve_active_schema (list_schemas : List (String × SchemaEntry))
    (column_schema : List Column) (kw : Kwargs) : Option SchemaEntry :=
  match kw.tag with
  | none => some (SchemaEntry.cols column_schema)
  | some t =>
    match alookup list_schemas t with
    | none => some (SchemaEntry.cols column_schema)
    | some e =>
      match kw.subtag with
      | some st =>
        if entryMem e st then some (SchemaEntry.cols (entryGet e st))
        else if entryMem e "default" then some (SchemaEntry.cols (entryGet e "default"))
        else alookup list_schemas "default"
      | none =>
        if entryMem e "default" then some (SchemaEntry.cols (entryGet e "default"))
        else alookup list_schemas "default"

/-- Python `str.title()` over a list of characters: upper-case every
character that starts an alphabetic run, lower-case the rest. -/
def pyTitleAux : List Char → Bool → List Char
  | [], _ => []
  | c :: rest, prevAlpha =>
    if c.isAlpha then
      (if prevAlpha then c.toLower else c.toUpper) :: pyTitleAux rest true
    else
      c :: pyTitleAux rest false

/-- Python `str.title()`. -/
def pyTitle (s : String) : String :=
  ⟨pyTitleAux s.toList false⟩

/-- Django's `select_template`: the first candidate that exists among the
installed templates, `none` modelling the `TemplateDoesNotExist` raised when
no candidate exists. -/
def select_template (existing : List String) (candidates : List String) : Option String :=
  candidates.find? (fun t => existing.contains t)

/-- Python `name.replace('_', ' ')` for the single-character pattern the
views use: replace every underscore by a space. -/
def replaceUnderscores (s : String) : String :=
  ⟨s.toList.map (fun c => if c = '_' then ' ' else c)⟩

/-- The per-column body of the loop in `_get_column_context`, building one
context dict (an association list in insertion order).  `c2u` is
`camelcase_to_underscore` from `opal.utils`, abstracted because it is not
part of the sources.  `none` models the uncaught `TemplateDoesNotExist` of
the detail-template lookup; the header-template lookup catches it and falls
back to the empty string. -/
def column_context (c2u : String → String) (existing : List String) (kw : Kwargs)
    (column : Column) : Option (List (String × Val)) :=
  let name := c2u column.name
  let title := column.title.getD (pyTitle (replaceUnderscores name))
  let header_templates := [name ++ "_header.html"]
  let header_templates :=
    match kw.tag with
    | none => header_templates
    | some t =>
      let ht := ("list_display/" ++ t ++ "/" ++ name ++ "_header.html") :: header_templates
      match kw.subtag with
      | none => ht
      | some st => ("list_display/" ++ t ++ "/" ++ st ++ "/" ++ name ++ "_header.html") :: ht
  let template_path := column.display_template kw.tag kw.subtag
  match select_template existing
      [name ++ "_detail.html", name ++ ".html", "records/" ++ name ++ ".html"] with
  | none => none
  | some detail_path =>
    some [("name", Val.str name),
          ("title", Val.str title),
          ("single", Val.bool column.is_singleton),
          ("icon", Val.str (column.icon.getD "")),
          ("list_limit", column.list_limit.elim Val.null Val.int),
          ("batch_template", column.batch_template.elim Val.null Val.str),
          ("template_path", Val.str template_path),
          ("detail_template_path", Val.str detail_path),
          ("header_template_path",
            Val.str ((select_template existing header_templates).getD ""))]

/-- The accumulation loop of `_get_column_context`: each iteration may raise
(`none`), otherwise its dict is appended in schema order. -/
def mapOption {α β : Type} (f : α → Option β) : List α → Option (List β)
  | [] => some []
  | a :: rest =>
    match f a, mapOption f rest with
    | some b, some bs => some (b :: bs)
    | _, _ => none

/-- `_get_column_context(schema, **kwargs)`: one context dict per column of
the schema, in order. -/
def _get_column_context (c2u : String → String) (existing : List String)
    (schema : List Column) (kw : Kwargs) : Option (List (List (String × Val))) :=
  mapOption (column_context c2u existing kw) schema

/-- `EpisodeTemplateView.get_column_context`: resolve the active schema from
`LIST_SCHEMAS` (a dict of schema entries, abstracted as a parameter because
it is assembled at import time from the plugins and the application's schema
module) and hand it to `_get_column_context`.  A resolved entry that is
itself a dict would make the loop body fail on its keys, modelled by
`entrySchema`. -/
def EpisodeTemplateView_get_column_context (c2u : String → String) (existing : List String)
    (list_schemas : List (String × SchemaEntry)) (column_schema : List Column)
    (kw : Kwargs) : Option (List (List (String × Val))) :=
  (resolve_active_schema list_schemas column_schema kw).bind fun e =>
    (entrySchema e).bind fun s => _get_column_context c2u existing s kw

/-- A sample column class used to instantiate witnesses on concrete
inputs. -/
def sampleColumn : Column :=
  { name := "Demographics"
    is_singleton := false
    title := some "Demographics"
    icon := none
    list_limit := none
    batch_template := none
    display_template := fun _ _ => "records/demographics.html" }

/-- The request data the legacy API views receive: the HTTP method, the
authenticated user, and the deserialised request body (what
`_get_request_data` returns). -/
structure Request (U D : Type) where
  method : HttpMethod
  user : U
  data : D

/-- The model-layer collaborators of `episode_detail_view`: the episode
serializers and `Episode.update_from_dict`, whose `ConsistencyError` is
modelled by `Except.error`. -/
structure EpisodeModel (Ep U D : Type) where
  to_dict : Ep → U → Val
  to_dict_shallow : Ep → U → Val
  update_from_dict : Ep → D → U → Except Unit Ep

/-- Saving an updated episode under its primary key. -/
def dbSet {Ep : Type} (db : List (Nat × Ep)) (pk : Nat) (e : Ep) : List (Nat × Ep) :=
  db.map (fun kv => if kv.1 = pk then (pk, e) else kv)

/-- `episode_detail_view`: 404 when the pk names no episode, GET serialises
the episode, PUT applies `update_from_dict` and answers either the shallow
serialisation of the updated episode or the 409 `Item has changed` error;
other methods are rejected by the `require_http_methods` decorator.  The
`glossolalia.change` notification has no effect on the response or the
database and is not modelled. -/
def episode_detail_view {Ep U D : Type} (M : EpisodeModel Ep U D)
    (db : List (Nat × Ep)) (req : Request U D) (pk : Nat) :
    Response × List (Nat × Ep) :=
  match req.method with
  | .POST => (Response.notAllowed, db)
  | m =>
    match alookup db pk with
    | none => (Response.notFound, db)
    | some episode =>
      match m with
      | .GET => (build_json_response (M.to_dict episode req.user) 200, db)
      | _ =>
        match M.update_from_dict episode req.data req.user with
        | .ok ep2 =>
          (build_json_response (M.to_dict_shallow ep2 req.user) 200, dbSet db pk ep2)
        | .error _ =>
          (build_json_response (Val.dict [("error", Val.str "Item has changed")]) 409, db)

/-- A sample episode model on `Ep = Nat`: updating with truthy data
increments the episode, anything else raises `ConsistencyError`. -/
def sampleEpisodeModel : EpisodeModel Nat Unit Val :=
  { to_dict := fun e _ => Val.int e
    to_dict_shallow := fun e _ => Val.int e
    update_from_dict := fun e d _ => if truthy d then Except.ok (e + 1) else Except.error () }

/-- The model-layer collaborators of `episode_list_and_create_view`, over
abstract patient `P`, episode `Ep`, location `L`, user `U` and database
state `St`.  `create_episode` and `episode_update_from_dict` return `none`
in the first component where the corresponding model call raises `APIError`,
together with the state reached so far. -/
structure CreateModel (P Ep L U St : Type) where
  serialised_active : U → St → Val
  get_or_create_patient : Val → St → P × St
  create_patient : St → P × St
  update_from_demographics_dict : P → Val → U → St → St
  create_episode : P → St → Option Ep × St
  episode_fieldnames : List String
  episode_update_from_dict : Ep → List (String × Val) → U → St → Option Ep × St
  location_get : Ep → St → Option L
  location_update_from_dict : L → Val → U → St → St
  set_tag_names : Ep → List String → U → St → St
  to_dict : Ep → U → St → Val

/-- The JSON body of the `APIError` branch of
`episode_list_and_create_view`. -/
def api_already_active_error : Val :=
  Val.dict [("error", Val.str "Patient already has active episode")]

/-- The part of the POST branch of `episode_list_and_create_view` after the
`try`/`except` block: update the episode's location, apply the tagging when
present, and answer the serialised episode with status 201.  The
`glossolalia.admit` notification has no effect on the response or the
database and is not modelled. -/
def create_post_tail {P Ep L U St : Type} (M : CreateModel P Ep L U St) (episode : Ep)
    (user : U) (data : List (String × Val)) (st : St) : Option (Response × St) :=
  match M.location_get episode st with
  | none => none
  | some location =>
    match alookup data "location" with
    | none => none
    | some locdata =>
      let st1 := M.location_update_from_dict location locdata user st
      match alookup data "tagging" with
      | none => some (build_json_response (M.to_dict episode user st1) 201, st1)
      | some tagging =>
        match pyIndex0 tagging with
        | none => none
        | some first =>
          match pyItems first with
          | none => none
          | some items =>
            let tag_names := (items.filter (fun kv => truthy kv.2)).map Prod.fst
            let st2 := M.set_tag_names episode tag_names user st1
            some (build_json_response (M.to_dict episode user st2) 201, st2)

/-- `episode_list_and_create_view`: GET serialises the active episodes; POST
creates (or finds) the patient from the demographics data, creates an
episode and applies the episode fields, answering the 400
`Patient already has active episode` error when the model raises `APIError`,
and otherwise continues with `create_post_tail`. -/
def episode_list_and_create_view {P Ep L U St : Type} (M : CreateModel P Ep L U St)
    (st : St) (req : Request U (List (String × Val))) : Option (Response × St) :=
  match req.method with
  | .GET => some (build_json_response (M.serialised_active req.user st) 200, st)
  | .PUT => some (Response.notAllowed, st)
  | .POST =>
    match alookup req.data "demographics" with
    | none => none
    | some demographics =>
      match pyDictGet demographics "hospital_number" with
      | none => none
      | some hospital_number =>
        let ps :=
          if truthy hospital_number then M.get_or_create_patient hospital_number st
          else M.create_patient st
        let st1 := M.update_from_demographics_dict ps.1 demographics req.user ps.2
        match M.create_episode ps.1 st1 with
        | (none, st2) => some (build_json_response api_already_active_error 400, st2)
        | (some episode, st2) =>
          let episode_data := M.episode_fieldnames.filterMap
            (fun f => (alookup req.data f).map (fun v => (f, v)))
          match M.episode_update_from_dict episode episode_data req.user st2 with
          | (none, st3) => some (build_json_response api_already_active_error 400, st3)
          | (some episode2, st3) => create_post_tail M episode2 req.user req.data st3

/-- A sample create model on `P = Ep = L = Nat` with a step-counting state,
used to instantiate the C5 witness. -/
def sampleCreateModel : CreateModel Nat Nat Nat Unit Nat :=
  { serialised_active := fun _ st => Val.int st
    get_or_create_patient := fun _ st => (1, st + 1)
    create_patient := fun st => (2, st + 1)
    update_from_demographics_dict := fun _ _ _ st => st + 1
    create_episode := fun _ st => (some 7, st + 1)
    episode_fieldnames := ["category"]
    episode_update_from_dict := fun e _ _ st => (some e, st + 1)
    location_get := fun _ _ => some 4
    location_update_from_dict := fun _ _ _ st => st + 1
    set_tag_names := fun _ _ _ st => st + 1
    to_dict := fun e _ st => Val.list [Val.int e, Val.int st] }

/-- A subrecord row: its episode foreign key and its payload fields. -/
structure SubRow where
  episode : Nat
  data : Val

/-- One episode-subrecord table: the `_is_singleton` flag of its class, the
next free row id, and its rows keyed by id. -/
structure SubTable where
  is_singleton : Bool
  next_row_id : Nat
  rows : List (Nat × SubRow)

/-- The database state `EpisodeCopyToCategoryView.post` works on: the episode
table with its next free pk, and the episode-subrecord tables (the result of
`episode_subrecords()`). -/
structure CopyDB where
  episodes : List (Nat × EpisodeRow)
  next_episode_id : Nat
  subrecords : List SubTable

/-- The inner loop of `EpisodeCopyToCategoryView.post` for one subrecord
class: each row of the old episode gets `item.id = None`,
`item.episode = new` and is saved, appending a fresh-id copy attached to the
new episode. -/
def copy_items (new_pk : Nat) : List (Nat × SubRow) → Nat → List (Nat × SubRow) × Nat
  | [], n => ([], n)
  | r :: rest, n =>
    let res := copy_items new_pk rest (n + 1)
    ((n, { episode := new_pk, data := r.2.data }) :: res.1, res.2)

/-- The per-table body of the loop in `EpisodeCopyToCategoryView.post`:
singleton subrecord classes are skipped, the rows of the others that belong
to the old episode are copied onto the new episode. -/
def copy_rows_for (old_pk new_pk : Nat) (tbl : SubTable) : SubTable :=
  if tbl.is_singleton then tbl
  else
    let copied :=
      copy_items new_pk (tbl.rows.filter (fun r => r.2.episode == old_pk)) tbl.next_row_id
    { tbl with rows := tbl.rows ++ copied.1, next_row_id := copied.2 }

/-- `EpisodeCopyToCategoryView.post`: create a new episode with the old
episode's patient and date of admission and the requested category, copy the
non-singleton subrecord rows, and answer the serialised new episode.
`to_dict` abstracts the episode serializer; `none` models the uncaught
`Episode.DoesNotExist` when the pk names no episode. -/
def EpisodeCopyToCategoryView_post (to_dict : CopyDB → Nat → Val) (db : CopyDB)
    (pk : Nat) (category : String) : Option (Response × CopyDB) :=
  match alookup db.episodes pk with
  | none => none
  | some old =>
    let new_pk := db.next_episode_id
    let newEp : EpisodeRow :=
      { patient := old.patient, category := category,
        date_of_admission := old.date_of_admission }
    let db2 : CopyDB :=
      { episodes := db.episodes ++ [(new_pk, newEp)],
        next_episode_id := db.next_episode_id + 1,
        subrecords := db.subrecords.map (copy_rows_for pk new_pk) }
    some (build_json_response (to_dict db2 new_pk) 200, db2)

/-- A sample database for the C9 witness: one episode with one non-singleton
subrecord row. -/
def sampleCopyDB : CopyDB :=
  { episodes := [(1, { patient := 5, category := "inpatient",
                       date_of_admission := some "2024-01-01" })]
    next_episode_id := 2
    subrecords := [{ is_singleton := false, next_row_id := 10,
                     rows := [(0, { episode := 1, data := Val.str "x" })] }] }

end Opal

namespace Opal

/-! ### Theorems about the request handlers, one per claim, with
concrete-input witnesses and shared helper lemmas -/

/-- Claim C3: for every episode, `EpisodeDetailTemplateView.get_template_names`
returns exactly the two-element list whose first element is
`detail/<category lowercased>.html` and whose second element is
`detail/default.html`. -/
theorem episode_detail_template_names_spec (episode : EpisodeRow) :
    (EpisodeDetailTemplateView_get_template_names episode).length = 2 ∧
    (EpisodeDetailTemplateView_get_template_names episode).head? =
      some ("detail/" ++ episode.category.toLower ++ ".html") ∧
    (EpisodeDetailTemplateView_get_template_names episode)[1]? =
      some "detail/default.html" := by
  exact ⟨rfl, rfl, rfl⟩

/-- Claim C4: `patient_search_view` answers 400 `No search terms` exactly when
neither `hospital_number` nor `name` is a query parameter; otherwise it
returns the serialised patients matching the filters built from the
parameters that are present. -/
theorem patient_search_view_spec {P U St : Type} (M : SearchModel P U St) (st : St)
    (user : U) (GET : List (String × String)) :
    (patient_search_view M st user GET =
        build_json_response (Val.dict [("error", Val.str "No search terms")]) 400 ↔
      alookup GET "hospital_number" = none ∧ alookup GET "name" = none) ∧
    (∀ v, alookup GET "hospital_number" = some v → alookup GET "name" = none →
      patient_search_view M st user GET =
        build_json_response
          (Val.list ((M.filter_order [("demographics__hospital_number__iexact", v)] st).map
            (fun p => M.to_dict p user st))) 200) ∧
    (∀ w, alookup GET "hospital_number" = none → alookup GET "name" = some w →
      patient_search_view M st user GET =
        build_json_response
          (Val.list ((M.filter_order [("demographics__name__icontains", w)] st).map
            (fun p => M.to_dict p user st))) 200) ∧
    (∀ v w, alookup GET "hospital_number" = some v → alookup GET "name" = some w →
      patient_search_view M st user GET =
        build_json_response
          (Val.list ((M.filter_order
              [("demographics__hospital_number__iexact", v),
               ("demographics__name__icontains", w)] st).map
            (fun p => M.to_dict p user st))) 200) := by
  refine ⟨?_, ?_, ?_, ?_⟩
  · constructor
    · intro h
      cases hh : alookup GET "hospital_number" <;> cases hn : alookup GET "name" <;>
        first
          | exact ⟨rfl, rfl⟩
          | simp [patient_search_view, hh, hn, build_json_response] at h
    · rintro ⟨hh, hn⟩
      simp [patient_search_view, hh, hn, build_json_response]
  · intro v hh hn
    simp [patient_search_view, hh, hn, build_json_response]
  · intro w hh hn
    simp [patient_search_view, hh, hn, build_json_response]
  · intro v w hh hn
    simp [patient_search_view, hh, hn, build_json_response]

/-- Claim C4, witness: a request carrying only a `name` parameter takes the
serialised-list branch, and a request with no parameters takes the 400
branch. -/
theorem patient_search_view_spec_witness :
    alookup [("name", "smith")] "hospital_number" = none ∧
    (patient_search_view
        (SearchModel.mk (fun _ _ => ([] : List Unit)) (fun _ _ _ => Val.null))
        () () [("name", "smith")] =
      build_json_response (Val.list []) 200) := by
  have h := (patient_search_view_spec
      (SearchModel.mk (fun _ _ => ([] : List Unit)) (fun _ _ _ => Val.null))
      () () [("name", "smith")]).2.2.1 "smith" (by decide) (by decide)
  exact ⟨by decide, by simpa using h⟩

/-- Claim C10: in `EpisodeListView.get`, the team-name filter is the subtag
when a (truthy) subtag is given, otherwise the tag when a (truthy) tag is
given, otherwise absent; and the `tagging__user` filter is present exactly
when the tag equals `mine`. -/
theorem episode_list_filter_kwargs_spec {U : Type} (user : U) (tag subtag : Option String) :
    (∀ s, subtag = some s → s ≠ "" →
      alookup (episode_list_filter_kwargs user tag subtag) "tagging__team__name" =
        some (FilterVal.team_name s)) ∧
    ((subtag = none ∨ subtag = some "") → ∀ t, tag = some t → t ≠ "" →
      alookup (episode_list_filter_kwargs user tag subtag) "tagging__team__name" =
        some (FilterVal.team_name t)) ∧
    ((subtag = none ∨ subtag = some "") → (tag = none ∨ tag = some "") →
      alookup (episode_list_filter_kwargs user tag subtag) "tagging__team__name" = none) ∧
    (alookup (episode_list_filter_kwargs user tag subtag) "tagging__user" =
      if tag = some "mine" then some (FilterVal.tagged_user user) else none) := by
  refine ⟨?_, ?_, ?_, ?_⟩
  · intro s hs hne
    subst hs
    have ht : optStrTruthy (some s) = true := by
      simp [optStrTruthy, bne_iff_ne, hne]
    by_cases hm : tag = some "mine" <;>
      simp [episode_list_filter_kwargs, ht, hm, alookup]
  · intro hsub t htag htne
    subst htag
    have hs : optStrTruthy subtag = false := by
      rcases hsub with h | h <;> simp [h, optStrTruthy]
    have ht : optStrTruthy (some t) = true := by
      simp [optStrTruthy, bne_iff_ne, htne]
    by_cases hm : t = "mine"
    · subst hm
      simp [episode_list_filter_kwargs, hs, ht, alookup]
    · simp [episode_list_filter_kwargs, hs, ht, hm, alookup]
  · intro hsub htag
    have hs : optStrTruthy subtag = false := by
      rcases hsub with h | h <;> simp [h, optStrTruthy]
    have ht : optStrTruthy tag = false := by
      rcases htag with h | h <;> simp [h, optStrTruthy]
    have hm : ¬ tag = some "mine" := by
      rcases htag with h | h <;> simp [h]
    simp [episode_list_filter_kwargs, hs, ht, hm, alookup]
  · by_cases hm : tag = some "mine" <;>
      by_cases hs : optStrTruthy subtag <;>
      by_cases ht : optStrTruthy tag <;>
      simp [episode_list_filter_kwargs, hs, ht, hm, alookup]

/-- Claim C10, witness: with tag `mine` and a truthy subtag `hiv`, the
team-name filter is the subtag and the user filter is present. -/
theorem episode_list_filter_kwargs_spec_witness :
    (some "hiv" : Option String) = some "hiv" ∧
    alookup (episode_list_filter_kwargs (0 : Nat) (some "mine") (some "hiv"))
        "tagging__team__name" = some (FilterVal.team_name "hiv") := by
  refine ⟨rfl, ?_⟩
  exact (episode_list_filter_kwargs_spec (0 : Nat) (some "mine") (some "hiv")).1
    "hiv" rfl (by decide)

/-- Claim C2: `EpisodeTemplateView.get_column_context` resolves the active
schema with this precedence: the `LIST_SCHEMAS[tag][subtag]` schema when the
tag is a `LIST_SCHEMAS` key and the subtag a key of its entry; else that
entry's `default` schema when present; else the global `LIST_SCHEMAS`
`default` entry; and the view's own `column_schema` when the tag is absent
or not a `LIST_SCHEMAS` key. -/
theorem get_column_context_schema_precedence (c2u : String → String)
    (existing : List String) (ls : List (String × SchemaEntry)) (cs : List Column)
    (kw : Kwargs) :
    (∀ t e st, kw.tag = some t → alookup ls t = some e → kw.subtag = some st →
      entryMem e st = true →
      EpisodeTemplateView_get_column_context c2u existing ls cs kw =
        _get_column_context c2u existing (entryGet e st) kw) ∧
    (∀ t e, kw.tag = some t → alookup ls t = some e →
      (∀ st, kw.subtag = some st → entryMem e st = false) →
      entryMem e "default" = true →
      EpisodeTemplateView_get_column_context c2u existing ls cs kw =
        _get_column_context c2u existing (entryGet e "default") kw) ∧
    (∀ t e, kw.tag = some t → alookup ls t = some e →
      (∀ st, kw.subtag = some st → entryMem e st = false) →
      entryMem e "default" = false →
      EpisodeTemplateView_get_column_context c2u existing ls cs kw =
        (alookup ls "default").bind fun e2 =>
          (entrySchema e2).bind fun s => _get_column_context c2u existing s kw) ∧
    ((∀ t, kw.tag = some t → alookup ls t = none) →
      EpisodeTemplateView_get_column_context c2u existing ls cs kw =
        _get_column_context c2u existing cs kw) := by
  refine ⟨?_, ?_, ?_, ?_⟩
  · intro t e st ht he hst hmem
    simp [EpisodeTemplateView_get_column_context, resolve_active_schema, ht, he, hst,
      hmem, entrySchema]
  · intro t e ht he hsub hdef
    cases hs : kw.subtag with
    | none =>
      simp [EpisodeTemplateView_get_column_context, resolve_active_schema, ht, he, hs,
        hdef, entrySchema]
    | some st =>
      have hst := hsub st hs
      simp [EpisodeTemplateView_get_column_context, resolve_active_schema, ht, he, hs,
        hst, hdef, entrySchema]
  · intro t e ht he hsub hdef
    cases hs : kw.subtag with
    | none =>
      simp [EpisodeTemplateView_get_column_context, resolve_active_schema, ht, he, hs,
        hdef, entrySchema]
    | some st =>
      have hst := hsub st hs
      simp [EpisodeTemplateView_get_column_context, resolve_active_schema, ht, he, hs,
        hst, hdef, entrySchema]
  · intro hmiss
    cases ht : kw.tag with
    | none =>
      simp [EpisodeTemplateView_get_column_context, resolve_active_schema, ht,
        entrySchema]
    | some t =>
      have he := hmiss t ht
      simp [EpisodeTemplateView_get_column_context, resolve_active_schema, ht, he,
        entrySchema]

/-- Claim C2, witness: with `LIST_SCHEMAS` mapping tag `t1` to a dict with
subtag `s1`, the view uses the `t1`/`s1` schema. -/
theorem get_column_context_schema_precedence_witness :
    entryMem (SchemaEntry.table [("s1", [sampleColumn])]) "s1" = true ∧
    EpisodeTemplateView_get_column_context (fun s => s) ["demographics_detail.html"]
        [("t1", SchemaEntry.table [("s1", [sampleColumn])])] []
        ⟨some "t1", some "s1"⟩ =
      _get_column_context (fun s => s) ["demographics_detail.html"]
        (entryGet (SchemaEntry.table [("s1", [sampleColumn])]) "s1")
        ⟨some "t1", some "s1"⟩ := by
  refine ⟨by decide, ?_⟩
  exact (get_column_context_schema_precedence (fun s => s) ["demographics_detail.html"]
      [("t1", SchemaEntry.table [("s1", [sampleColumn])])] []
      ⟨some "t1", some "s1"⟩).1
    "t1" (SchemaEntry.table [("s1", [sampleColumn])]) "s1" rfl (by simp [alookup]) rfl
    (by decide)

/-- `mapOption` preserves length. -/
theorem mapOption_length {α β : Type} (f : α → Option β) :
    ∀ (l : List α) (l2 : List β), mapOption f l = some l2 → l2.length = l.length := by
  intro l
  induction l with
  | nil =>
    intro l2 h
    simp only [mapOption, Option.some.injEq] at h
    subst h
    rfl
  | cons a rest ih =>
    intro l2 h
    simp only [mapOption] at h
    cases hf : f a with
    | none => rw [hf] at h; simp at h
    | some b =>
      rw [hf] at h
      cases hr : mapOption f rest with
      | none => rw [hr] at h; simp at h
      | some bs =>
        rw [hr] at h
        simp only [Option.some.injEq] at h
        subst h
        simp [ih bs hr]

/-- `mapOption` applies `f` position-wise. -/
theorem mapOption_get {α β : Type} (f : α → Option β) :
    ∀ (l : List α) (l2 : List β), mapOption f l = some l2 →
      ∀ (i : Nat) (hi : i < l.length), l2[i]? = f (l.get ⟨i, hi⟩) := by
  intro l
  induction l with
  | nil =>
    intro l2 h i hi
    exact absurd hi (by simp)
  | cons a rest ih =>
    intro l2 h i hi
    simp only [mapOption] at h
    cases hf : f a with
    | none => rw [hf] at h; simp at h
    | some b =>
      rw [hf] at h
      cases hr : mapOption f rest with
      | none => rw [hr] at h; simp at h
      | some bs =>
        rw [hr] at h
        simp only [Option.some.injEq] at h
        subst h
        cases i with
        | zero => simp [hf]
        | succ j =>
          have hj : j < rest.length := by simpa using hi
          simpa using ih bs hr j hj

/-- Shape of a single column-context dict produced by `column_context`. -/
theorem column_context_shape (c2u : String → String) (existing : List String)
    (kw : Kwargs) (column : Column) (entry : List (String × Val))
    (h : column_context c2u existing kw column = some entry) :
    entry.map Prod.fst =
      ["name", "title", "single", "icon", "list_limit", "batch_template",
       "template_path", "detail_template_path", "header_template_path"] ∧
    alookup entry "name" = some (Val.str (c2u column.name)) ∧
    (column.title = none →
      alookup entry "title" =
        some (Val.str (pyTitle (replaceUnderscores (c2u column.name))))) ∧
    (∀ t st, kw.tag = some t → kw.subtag = some st →
      alookup entry "header_template_path" =
        some (Val.str ((select_template existing
          ["list_display/" ++ t ++ "/" ++ st ++ "/" ++ c2u column.name ++ "_header.html",
           "list_display/" ++ t ++ "/" ++ c2u column.name ++ "_header.html",
           c2u column.name ++ "_header.html"]).getD ""))) := by
  simp only [column_context] at h
  split at h
  · exact absurd h (by simp)
  · simp only [Option.some.injEq] at h
    subst h
    refine ⟨rfl, by simp [alookup], ?_, ?_⟩
    · intro htitle
      simp [alookup, htitle]
    · intro t st ht hst
      simp [alookup, ht, hst]

/-- Claim C6: `_get_column_context` returns one dict per column in schema
order, with exactly the nine context keys in insertion order; the `name`
value is the underscore form of the column class name, the `title` value
defaults to that name with underscores replaced by spaces and title-cased
when the column has no `_title`, and when both tag and subtag are given the
`header_template_path` value is the first existing template among the
subtag-, tag- and plain header candidates, or the empty string. -/
theorem get_column_context_entries (c2u : String → String) (existing : List String)
    (schema : List Column) (kw : Kwargs) (ctx : List (List (String × Val)))
    (h : _get_column_context c2u existing schema kw = some ctx) :
    ctx.length = schema.length ∧
    ∀ (i : Nat) (hi : i < schema.length), ∃ entry, ctx[i]? = some entry ∧
      entry.map Prod.fst =
        ["name", "title", "single", "icon", "list_limit", "batch_template",
         "template_path", "detail_template_path", "header_template_path"] ∧
      alookup entry "name" = some (Val.str (c2u (schema.get ⟨i, hi⟩).name)) ∧
      ((schema.get ⟨i, hi⟩).title = none →
        alookup entry "title" =
          some (Val.str (pyTitle (replaceUnderscores (c2u (schema.get ⟨i, hi⟩).name))))) ∧
      (∀ t st, kw.tag = some t → kw.subtag = some st →
        alookup entry "header_template_path" =
          some (Val.str ((select_template existing
            ["list_display/" ++ t ++ "/" ++ st ++ "/" ++
                c2u (schema.get ⟨i, hi⟩).name ++ "_header.html",
             "list_display/" ++ t ++ "/" ++ c2u (schema.get ⟨i, hi⟩).name ++ "_header.html",
             c2u (schema.get ⟨i, hi⟩).name ++ "_header.html"]).getD ""))) := by
  constructor
  · exact mapOption_length _ schema ctx h
  · intro i hi
    have hg := mapOption_get (column_context c2u existing kw) schema ctx h i hi
    cases hentry : column_context c2u existing kw (schema.get ⟨i, hi⟩) with
    | none =>
      rw [hentry] at hg
      have hlen : ctx.length = schema.length := mapOption_length _ schema ctx h
      have hlt : i < ctx.length := by omega
      rw [List.getElem?_eq_none_iff] at hg
      omega
    | some entry =>
      rw [hentry] at hg
      obtain ⟨hkeys, hname, htitle, hheader⟩ :=
        column_context_shape c2u existing kw (schema.get ⟨i, hi⟩) entry hentry
      exact ⟨entry, hg, hkeys, hname, htitle, hheader⟩

/-- Claim C6, witness: the context for a one-column schema with tag and
subtag given, no existing header templates and an existing detail
template. -/
theorem get_column_context_entries_witness :
    _get_column_context (fun s => s) ["Demographics_detail.html"] [sampleColumn]
        ⟨some "t1", some "s1"⟩ =
      some [[("name", Val.str "Demographics"),
             ("title", Val.str "Demographics"),
             ("single", Val.bool false),
             ("icon", Val.str ""),
             ("list_limit", Val.null),
             ("batch_template", Val.null),
             ("template_path", Val.str "records/demographics.html"),
             ("detail_template_path", Val.str "Demographics_detail.html"),
             ("header_template_path", Val.str "")]] ∧
    ([[("name", Val.str "Demographics"),
       ("title", Val.str "Demographics"),
       ("single", Val.bool false),
       ("icon", Val.str ""),
       ("list_limit", Val.null),
       ("batch_template", Val.null),
       ("template_path", Val.str "records/demographics.html"),
       ("detail_template_path", Val.str "Demographics_detail.html"),
       ("header_template_path", Val.str "")]] :
      List (List (String × Val))).length = [sampleColumn].length := by
  have h : _get_column_context (fun s => s) ["Demographics_detail.html"] [sampleColumn]
      ⟨some "t1", some "s1"⟩ =
      some [[("name", Val.str "Demographics"),
             ("title", Val.str "Demographics"),
             ("single", Val.bool false),
             ("icon", Val.str ""),
             ("list_limit", Val.null),
             ("batch_template", Val.null),
             ("template_path", Val.str "records/demographics.html"),
             ("detail_template_path", Val.str "Demographics_detail.html"),
             ("header_template_path", Val.str "")]] := by
    simp [_get_column_context, mapOption, column_context, sampleColumn, select_template,
      alookup]
  exact ⟨h, (get_column_context_entries (fun s => s) ["Demographics_detail.html"]
    [sampleColumn] ⟨some "t1", some "s1"⟩ _ h).1⟩

/-- Claim C1: for every PUT to `episode_detail_view` on an existing episode,
a `ConsistencyError` from `update_from_dict` yields the JSON body
`error: Item has changed` with status 409 and leaves the database unchanged;
otherwise the response is the shallow serialisation of the updated episode
with the default success status 200. -/
theorem episode_detail_view_put_spec {Ep U D : Type} (M : EpisodeModel Ep U D)
    (db : List (Nat × Ep)) (req : Request U D) (pk : Nat) (ep : Ep)
    (hm : req.method = HttpMethod.PUT) (hlk : alookup db pk = some ep) :
    (∀ e, M.update_from_dict ep req.data req.user = Except.error e →
      episode_detail_view M db req pk =
        (build_json_response (Val.dict [("error", Val.str "Item has changed")]) 409, db)) ∧
    (∀ ep2, M.update_from_dict ep req.data req.user = Except.ok ep2 →
      episode_detail_view M db req pk =
        (build_json_response (M.to_dict_shallow ep2 req.user) 200, dbSet db pk ep2)) := by
  constructor
  · intro e hu
    simp [episode_detail_view, hm, hlk, hu]
  · intro ep2 hu
    simp [episode_detail_view, hm, hlk, hu]

/-- Claim C1, witness: a PUT with truthy data on episode 3 stores the updated
episode and answers its shallow serialisation with status 200. -/
theorem episode_detail_view_put_spec_witness :
    alookup [((3 : Nat), (10 : Nat))] 3 = some 10 ∧
    episode_detail_view sampleEpisodeModel [(3, 10)]
        ⟨HttpMethod.PUT, (), Val.int 1⟩ 3 =
      (build_json_response (Val.int 11) 200, [(3, 11)]) := by
  refine ⟨by decide, ?_⟩
  have h := (episode_detail_view_put_spec sampleEpisodeModel [(3, 10)]
      ⟨HttpMethod.PUT, (), Val.int 1⟩ 3 10 rfl (by decide)).2 11 rfl
  simpa [dbSet] using h

/-- Claim C7: for every GET to `episode_detail_view` on an existing episode,
the response is `episode.to_dict(request.user)` serialised with status 200,
and the episode database is unchanged. -/
theorem episode_detail_view_get_spec {Ep U D : Type} (M : EpisodeModel Ep U D)
    (db : List (Nat × Ep)) (req : Request U D) (pk : Nat) (ep : Ep)
    (hm : req.method = HttpMethod.GET) (hlk : alookup db pk = some ep) :
    episode_detail_view M db req pk =
      (build_json_response (M.to_dict ep req.user) 200, db) := by
  simp [episode_detail_view, hm, hlk]

/-- Claim C7, witness: a GET on episode 3 returns its serialisation and
leaves the database unchanged. -/
theorem episode_detail_view_get_spec_witness :
    alookup [((3 : Nat), (10 : Nat))] 3 = some 10 ∧
    episode_detail_view sampleEpisodeModel [(3, 10)]
        ⟨HttpMethod.GET, (), Val.null⟩ 3 =
      (build_json_response (Val.int 10) 200, [(3, 10)]) := by
  exact ⟨by decide, episode_detail_view_get_spec sampleEpisodeModel [(3, 10)]
    ⟨HttpMethod.GET, (), Val.null⟩ 3 10 rfl (by decide)⟩

/-- Claim C8: for every GET or PUT to `episode_detail_view` whose pk names no
episode, the response is a 404 and the database is unchanged. -/
theorem episode_detail_view_missing_spec {Ep U D : Type} (M : EpisodeModel Ep U D)
    (db : List (Nat × Ep)) (req : Request U D) (pk : Nat)
    (hm : req.method = HttpMethod.GET ∨ req.method = HttpMethod.PUT)
    (hlk : alookup db pk = none) :
    episode_detail_view M db req pk = (Response.notFound, db) := by
  rcases hm with h | h <;> simp [episode_detail_view, h, hlk]

/-- Claim C8, witness: a GET on an unknown pk answers 404 with the database
unchanged. -/
theorem episode_detail_view_missing_spec_witness :
    alookup [((3 : Nat), (10 : Nat))] 5 = none ∧
    episode_detail_view sampleEpisodeModel [(3, 10)]
        ⟨HttpMethod.GET, (), Val.null⟩ 5 =
      (Response.notFound, [(3, 10)]) := by
  exact ⟨by decide, episode_detail_view_missing_spec sampleEpisodeModel [(3, 10)]
    ⟨HttpMethod.GET, (), Val.null⟩ 5 (Or.inl rfl) (by decide)⟩

/-- Whenever `create_post_tail` produces a response, it is the serialised
episode with status 201. -/
theorem create_post_tail_response {P Ep L U St : Type} (M : CreateModel P Ep L U St)
    (episode : Ep) (user : U) (data : List (String × Val)) (st : St) (r : Response)
    (st2 : St) (h : create_post_tail M episode user data st = some (r, st2)) :
    r = build_json_response (M.to_dict episode user st2) 201 := by
  simp only [create_post_tail] at h
  split at h
  · exact absurd h (by simp)
  · split at h
    · exact absurd h (by simp)
    · split at h
      · simp only [Option.some.injEq, Prod.mk.injEq] at h
        obtain ⟨h1, h2⟩ := h
        subst h2
        exact h1.symm
      · split at h
        · exact absurd h (by simp)
        · split at h
          · exact absurd h (by simp)
          · simp only [Option.some.injEq, Prod.mk.injEq] at h
            obtain ⟨h1, h2⟩ := h
            subst h2
            exact h1.symm

/-- Claim C5: for a POST to `episode_list_and_create_view`, an `APIError`
while creating the episode (or applying its fields) yields the JSON body
`error: Patient already has active episode` with status 400; without an
`APIError`, every produced response is the JSON serialisation of the new
episode with status 201. -/
theorem episode_list_and_create_view_post_spec {P Ep L U St : Type}
    (M : CreateModel P Ep L U St) (st : St) (req : Request U (List (String × Val)))
    (demographics hospital_number : Val) (ps : P × St) (st1 : St)
    (hm : req.method = HttpMethod.POST)
    (hd : alookup req.data "demographics" = some demographics)
    (hh : pyDictGet demographics "hospital_number" = some hospital_number)
    (hp : ps = if truthy hospital_number then M.get_or_create_patient hospital_number st
          else M.create_patient st)
    (h1 : st1 = M.update_from_demographics_dict ps.1 demographics req.user ps.2) :
    (∀ st2, M.create_episode ps.1 st1 = (none, st2) →
      episode_list_and_create_view M st req =
        some (build_json_response api_already_active_error 400, st2)) ∧
    (∀ ep st2 st3, M.create_episode ps.1 st1 = (some ep, st2) →
      M.episode_update_from_dict ep
          (M.episode_fieldnames.filterMap (fun f => (alookup req.data f).map (fun v => (f, v))))
          req.user st2 = (none, st3) →
      episode_list_and_create_view M st req =
        some (build_json_response api_already_active_error 400, st3)) ∧
    (∀ ep st2 ep2 st3 r st4, M.create_episode ps.1 st1 = (some ep, st2) →
      M.episode_update_from_dict ep
          (M.episode_fieldnames.filterMap (fun f => (alookup req.data f).map (fun v => (f, v))))
          req.user st2 = (some ep2, st3) →
      create_post_tail M ep2 req.user req.data st3 = some (r, st4) →
      episode_list_and_create_view M st req =
        some (build_json_response (M.to_dict ep2 req.user st4) 201, st4)) := by
  subst hp
  subst h1
  refine ⟨?_, ?_, ?_⟩
  · intro st2 hc
    simp [episode_list_and_create_view, hm, hd, hh, hc]
  · intro ep st2 st3 hc hu
    simp [episode_list_and_create_view, hm, hd, hh, hc, hu]
  · intro ep st2 ep2 st3 r st4 hc hu htail
    have hr := create_post_tail_response M ep2 req.user req.data st3 r st4 htail
    subst hr
    simp [episode_list_and_create_view, hm, hd, hh, hc, hu, htail]

/-- Claim C5, witness: a POST with demographics, a hospital number and
location data creates episode 7 and answers its serialisation with
status 201. -/
theorem episode_list_and_create_view_post_spec_witness :
    pyDictGet (Val.dict [("hospital_number", Val.str "123")]) "hospital_number" =
      some (Val.str "123") ∧
    episode_list_and_create_view sampleCreateModel 0
        ⟨HttpMethod.POST, (),
         [("demographics", Val.dict [("hospital_number", Val.str "123")]),
          ("location", Val.dict [])]⟩ =
      some (build_json_response (Val.list [Val.int 7, Val.int 5]) 201, 5) := by
  refine ⟨rfl, ?_⟩
  exact (episode_list_and_create_view_post_spec sampleCreateModel 0
      ⟨HttpMethod.POST, (),
       [("demographics", Val.dict [("hospital_number", Val.str "123")]),
        ("location", Val.dict [])]⟩
      (Val.dict [("hospital_number", Val.str "123")]) (Val.str "123")
      (1, 1) 2 rfl (by simp [alookup]) rfl rfl rfl).2.2
    7 3 7 4 (build_json_response (Val.list [Val.int 7, Val.int 5]) 201) 5
    rfl rfl (by simp [create_post_tail, sampleCreateModel, alookup, build_json_response])

/-- `alookup` ignores a right extension when the key is already bound. -/
theorem alookup_append_left {κ α : Type} [DecidableEq κ] :
    ∀ (l l2 : List (κ × α)) (k : κ) (v : α),
      alookup l k = some v → alookup (l ++ l2) k = some v := by
  intro l
  induction l with
  | nil => intro l2 k v h; simp [alookup] at h
  | cons p rest ih =>
    intro l2 k v h
    by_cases hk : p.1 = k
    · simp [alookup, hk] at h ⊢
      exact h
    · simp [alookup, hk] at h ⊢
      exact ih l2 k v h

/-- `alookup` falls through to a right extension when the key is unbound on
the left. -/
theorem alookup_append_right {κ α : Type} [DecidableEq κ] :
    ∀ (l l2 : List (κ × α)) (k : κ),
      alookup l k = none → alookup (l ++ l2) k = alookup l2 k := by
  intro l
  induction l with
  | nil => intro l2 k _; rfl
  | cons p rest ih =>
    intro l2 k h
    by_cases hk : p.1 = k
    · simp [alookup, hk] at h
    · simp [alookup, hk] at h ⊢
      exact ih l2 k h

/-- `copy_items` produces one copy per row. -/
theorem copy_items_length (new_pk : Nat) :
    ∀ (olds : List (Nat × SubRow)) (n : Nat),
      (copy_items new_pk olds n).1.length = olds.length := by
  intro olds
  induction olds with
  | nil => intro n; rfl
  | cons r rest ih => intro n; simp [copy_items, ih (n + 1)]

/-- The copies made by `copy_items`: fresh consecutive ids, the new episode
as foreign key, the old payload. -/
theorem copy_items_get (new_pk : Nat) :
    ∀ (olds : List (Nat × SubRow)) (n i : Nat) (hi : i < olds.length),
      (copy_items new_pk olds n).1[i]? =
        some (n + i, { episode := new_pk, data := olds[i].2.data }) := by
  intro olds
  induction olds with
  | nil => intro n i hi; exact absurd hi (by simp)
  | cons r rest ih =>
    intro n i hi
    cases i with
    | zero => simp [copy_items]
    | succ j =>
      have hj : j < rest.length := by simpa using hi
      have h := ih (n + 1) j hj
      simp only [copy_items, List.getElem?_cons_succ]
      rw [h]
      have hn : n + 1 + j = n + (j + 1) := by omega
      rw [hn]
      rfl

/-- Claim C9: a POST to `EpisodeCopyToCategoryView` on an existing episode
creates a new episode with the old episode's patient and date of admission
and the requested category, leaves the old episode and the existing
subrecord rows unchanged, skips singleton subrecord classes, and duplicates
every non-singleton row of the old episode as a fresh row attached to the
new episode with the same payload. -/
theorem copy_to_category_post_spec (to_dict : CopyDB → Nat → Val) (db : CopyDB)
    (pk : Nat) (category : String) (old : EpisodeRow)
    (hold : alookup db.episodes pk = some old)
    (hfresh : alookup db.episodes db.next_episode_id = none) :
    ∀ (r : Response) (db2 : CopyDB),
      EpisodeCopyToCategoryView_post to_dict db pk category = some (r, db2) →
      alookup db2.episodes db.next_episode_id =
        some { patient := old.patient, category := category,
               date_of_admission := old.date_of_admission } ∧
      alookup db2.episodes pk = some old ∧
      db2.subrecords.length = db.subrecords.length ∧
      ∀ (j : Nat) (hj : j < db.subrecords.length),
        (db.subrecords[j].is_singleton = true →
          db2.subrecords[j]? = some (db.subrecords[j])) ∧
        (db.subrecords[j].is_singleton = false →
          ∃ tbl2, db2.subrecords[j]? = some tbl2 ∧
            (∀ (i : Nat), i < db.subrecords[j].rows.length →
              tbl2.rows[i]? = db.subrecords[j].rows[i]?) ∧
            tbl2.rows.length = db.subrecords[j].rows.length +
              (db.subrecords[j].rows.filter (fun rr => rr.2.episode == pk)).length ∧
            ∀ (i : Nat)
              (hi : i < (db.subrecords[j].rows.filter
                (fun rr => rr.2.episode == pk)).length),
              tbl2.rows[db.subrecords[j].rows.length + i]? =
                some (db.subrecords[j].next_row_id + i,
                  { episode := db.next_episode_id,
                    data := (db.subrecords[j].rows.filter
                      (fun rr => rr.2.episode == pk))[i].2.data })) := by
  intro r db2 h
  simp only [EpisodeCopyToCategoryView_post, hold, Option.some.injEq, Prod.mk.injEq] at h
  obtain ⟨h1, h2⟩ := h
  subst h2
  refine ⟨?_, ?_, ?_, ?_⟩
  · rw [alookup_append_right db.episodes _ _ hfresh]
    simp [alookup]
  · exact alookup_append_left db.episodes _ pk old hold
  · simp
  · intro j hj
    constructor
    · intro hsing
      rw [List.getElem?_map, List.getElem?_eq_getElem hj]
      simp [copy_rows_for, hsing]
    · intro hsing
      refine ⟨copy_rows_for pk db.next_episode_id db.subrecords[j], ?_, ?_, ?_, ?_⟩
      · rw [List.getElem?_map, List.getElem?_eq_getElem hj]
        rfl
      · intro i hi
        simp only [copy_rows_for, hsing, Bool.false_eq_true, if_false]
        exact List.getElem?_append_left hi
      · simp [copy_rows_for, hsing, copy_items_length]
      · intro i hi
        simp only [copy_rows_for, hsing, Bool.false_eq_true, if_false]
        rw [List.getElem?_append_right (by omega)]
        have hsub : db.subrecords[j].rows.length + i - db.subrecords[j].rows.length = i := by
          omega
        rw [hsub]
        exact copy_items_get db.next_episode_id _ db.subrecords[j].next_row_id i hi

/-- Claim C9, witness: copying episode 1 of the sample database to category
`research` creates episode 2 with the old patient and admission date. -/
theorem copy_to_category_post_spec_witness :
    alookup sampleCopyDB.episodes 1 =
      some { patient := 5, category := "inpatient",
             date_of_admission := some "2024-01-01" } ∧
    alookup
        (CopyDB.episodes
          { episodes := sampleCopyDB.episodes ++
              [(2, { patient := 5, category := "research",
                     date_of_admission := some "2024-01-01" })],
            next_episode_id := 3,
            subrecords := [{ is_singleton := false, next_row_id := 11,
                             rows := [(0, { episode := 1, data := Val.str "x" }),
                                      (10, { episode := 2, data := Val.str "x" })] }] })
        2 =
      some { patient := 5, category := "research",
             date_of_admission := some "2024-01-01" } := by
  refine ⟨rfl, ?_⟩
  exact (copy_to_category_post_spec (fun _ n => Val.int n) sampleCopyDB 1 "research"
      { patient := 5, category := "inpatient", date_of_admission := some "2024-01-01" }
      rfl rfl
      (build_json_response (Val.int 2) 200)
      { episodes := sampleCopyDB.episodes ++
          [(2, { patient := 5, category := "research",
                 date_of_admission := some "2024-01-01" })],
        next_episode_id := 3,
        subrecords := [{ is_singleton := false, next_row_id := 11,
                         rows := [(0, { episode := 1, data := Val.str "x" }),
                                  (10, { episode := 2, data := Val.str "x" })] }] }
      rfl).1

end Opal
